import Mathlib

/-!
Shallow embedding of the empathaicoach R2C2 core:
`src/server/r2c2/emotion_detector.py` (EmotionDetector) and
`src/server/r2c2/engine.py` (R2C2Engine).

Modelling conventions:
- Python floats become exact rationals.  All thresholds and scores in the
  source are decimal literals, so this is value-faithful.
- `datetime.now()` at each call site becomes an explicit `now : Rat`
  argument (seconds); `timedelta(seconds = w)` becomes subtraction of `w`.
- Text is a list of characters; Python's `str.lower` is `Char.toLower`
  mapped over the list, and Python's substring test `a in b` is the
  executable `containsSub`.
- `np.sqrt` is the one operation with no exact rational counterpart; the
  energy computation takes an abstract `sqrtA : Rat -> Rat` parameter.  No
  claim depends on the energy of a non-empty chunk.
- Fields never touched by any modelled operation (`feedback_data`, the
  `audio_features` payload of an emotion state) are omitted from the state.
-/

/-- EmotionType from emotion_detector.py (engine.py uses the same six
string values). -/
inductive EmotionType where
  | neutral
  | defensive
  | frustrated
  | sad
  | anxious
  | positive
deriving DecidableEq

/-- EmotionState: emotion, confidence and timestamp (seconds). -/
structure EmotionState where
  emotion : EmotionType
  confidence : Rat
  timestamp : Rat
deriving DecidableEq

/-- R2C2Phase from engine.py. -/
inductive R2C2Phase where
  | relationship
  | reaction
  | content
  | coaching
deriving DecidableEq

/-- Goal type strings used in engine.py (`cont` stands for the source's
string value for continuing a behaviour, a Lean keyword). -/
inductive GoalType where
  | start
  | stop
  | cont
deriving DecidableEq

-- Detector thresholds (EmotionDetector class constants).

def PITCH_VARIANCE_HIGH : Rat := 50

def PITCH_VARIANCE_LOW : Rat := 15

def ENERGY_HIGH : Rat := 7/10

def ENERGY_LOW : Rat := 3/10

def TEMPO_FAST : Rat := 13/10

def TEMPO_SLOW : Rat := 7/10

def MIN_CONFIDENCE : Rat := 3/10

def baselinePitch : Rat := 150

def baselineTempo : Rat := 1

/-- Smoothed feature vector consumed by `_classify_emotion` (the smoothed
`pitch` mean is also present in the source dict but never read by the
classifier). -/
structure SmoothedFeatures where
  pitchVariance : Rat
  energy : Rat
  tempo : Rat
deriving DecidableEq

/-- Per-emotion additive rule score of `_classify_emotion`
(emotion_detector.py lines 267-321).  The source accumulates into a dict;
grouping the summands per emotion preserves every value. -/
def emotionScore (f : SmoothedFeatures) : EmotionType → Rat
  | .defensive =>
      (if PITCH_VARIANCE_HIGH < f.pitchVariance then 4/10 else 0) +
      (if TEMPO_FAST < f.tempo then 3/10 else 0) +
      (if ENERGY_HIGH < f.energy then 3/10 else 0)
  | .frustrated =>
      (if ENERGY_HIGH < f.energy then 4/10 else 0) +
      (if PITCH_VARIANCE_HIGH * (7/10) < f.pitchVariance then 3/10 else 0) +
      (if TEMPO_FAST * (9/10) < f.tempo ∨ f.tempo < TEMPO_SLOW * (11/10) then 3/10 else 0)
  | .sad =>
      (if f.energy < ENERGY_LOW then 4/10 else 0) +
      (if f.tempo < TEMPO_SLOW then 3/10 else 0) +
      (if f.pitchVariance < PITCH_VARIANCE_LOW then 3/10 else 0)
  | .anxious =>
      (if PITCH_VARIANCE_HIGH < f.pitchVariance then 4/10 else 0) +
      (if TEMPO_FAST < f.tempo then 3/10 else 0) +
      (if ENERGY_HIGH * (8/10) < f.energy then 3/10 else 0)
  | .positive =>
      (if ENERGY_LOW < f.energy ∧ f.energy < ENERGY_HIGH then 3/10 else 0) +
      (if TEMPO_SLOW * (12/10) < f.tempo ∧ f.tempo < TEMPO_FAST * (9/10) then 4/10 else 0) +
      (if PITCH_VARIANCE_LOW < f.pitchVariance ∧ f.pitchVariance < PITCH_VARIANCE_HIGH * (8/10) then 3/10 else 0)
  | .neutral =>
      if (ENERGY_LOW * (12/10) < f.energy ∧ f.energy < ENERGY_HIGH * (8/10)) ∧
         (TEMPO_SLOW * (11/10) < f.tempo ∧ f.tempo < TEMPO_FAST * (9/10)) ∧
         f.pitchVariance < PITCH_VARIANCE_HIGH * (6/10) then 5/10 else 0

/-- Iteration order of the `emotion_scores` dict in `_classify_emotion`
(its insertion order, which Python dict iteration follows). -/
def emotionOrder : List EmotionType :=
  [.neutral, .defensive, .frustrated, .sad, .anxious, .positive]

/-- Python's `max(emotion_scores, key=emotion_scores.get)`: the first key
in iteration order attaining the maximum (later keys replace only on a
strictly greater score). -/
def argmaxEmotion (score : EmotionType → Rat) : EmotionType :=
  emotionOrder.foldl (fun best e => if score best < score e then e else best) .neutral

/-- The maximum accumulated rule score over all six emotions. -/
def maxRuleScore (f : SmoothedFeatures) : Rat :=
  (emotionOrder.map (emotionScore f)).foldl max (emotionScore f .neutral)

/-- `_classify_emotion` (emotion_detector.py lines 251-334): pick the
maximal emotion; below MIN_CONFIDENCE force Neutral at MIN_CONFIDENCE,
otherwise confidence is the score capped at 1. -/
def classifyEmotion (f : SmoothedFeatures) : EmotionType × Rat :=
  let maxEmotion := argmaxEmotion (emotionScore f)
  let maxScore := emotionScore f maxEmotion
  if maxScore < MIN_CONFIDENCE then (.neutral, MIN_CONFIDENCE)
  else (maxEmotion, min maxScore 1)

-- Helper lemmas for the classifier.

theorem emotionScore_nonneg (f : SmoothedFeatures) (e : EmotionType) :
    0 ≤ emotionScore f e := by
  cases e <;> simp only [emotionScore] <;> split_ifs <;> norm_num

theorem foldl_best_ge (score : EmotionType → Rat) :
    ∀ (l : List EmotionType) (b : EmotionType),
      score b ≤ score (l.foldl (fun best e => if score best < score e then e else best) b) ∧
      ∀ e ∈ l, score e ≤ score (l.foldl (fun best e => if score best < score e then e else best) b) := by
  intro l
  induction l with
  | nil => exact fun b => ⟨le_refl _, by simp⟩
  | cons x xs ih =>
    intro b
    have hstep : score b ≤ score (if score b < score x then x else b) ∧
        score x ≤ score (if score b < score x then x else b) := by
      split_ifs with h
      · exact ⟨le_of_lt h, le_refl _⟩
      · exact ⟨le_refl _, le_of_not_lt h⟩
    obtain ⟨ih1, ih2⟩ := ih (if score b < score x then x else b)
    refine ⟨le_trans hstep.1 ih1, ?_⟩
    intro e he
    rcases List.mem_cons.mp he with rfl | he2
    · exact le_trans hstep.2 ih1
    · exact ih2 e he2

theorem argmaxEmotion_ge (score : EmotionType → Rat) (e : EmotionType) :
    score e ≤ score (argmaxEmotion score) := by
  have h := (foldl_best_ge score emotionOrder .neutral).2
  unfold argmaxEmotion
  cases e <;> exact h _ (by simp [emotionOrder])

theorem emotionScore_le_maxRuleScore (f : SmoothedFeatures) (e : EmotionType) :
    emotionScore f e ≤ maxRuleScore f := by
  cases e <;> simp [maxRuleScore, emotionOrder, List.foldl, le_max_iff]

theorem argmaxEmotion_score_eq_maxRuleScore (f : SmoothedFeatures) :
    emotionScore f (argmaxEmotion (emotionScore f)) = maxRuleScore f := by
  refine le_antisymm (emotionScore_le_maxRuleScore f _) ?_
  have h := argmaxEmotion_ge (emotionScore f)
  simp only [maxRuleScore, emotionOrder, List.map, List.foldl, max_le_iff]
  exact ⟨⟨⟨⟨⟨⟨h _, h _⟩, h _⟩, h _⟩, h _⟩, h _⟩, h _⟩

-- Audio feature extraction (_extract_audio_features and helpers).

/-- np.max(np.abs(audio)) (0 for the empty chunk, which the source never
reaches). -/
def maxAbsSample (audio : List Rat) : Rat :=
  audio.foldl (fun m x => max m |x|) 0

/-- One positive-lag autocorrelation coefficient:
sum over i of a i * a (i + k). -/
def autocorrAt (a : List Rat) (k : Nat) : Rat :=
  ((a.zip (a.drop k)).map (fun p => p.1 * p.2)).sum

/-- The positive-lag half of np.correlate(a, a, mode full), i.e.
correlation[len(correlation)//2:] in `_estimate_pitch`. -/
def autocorr (a : List Rat) : List Rat :=
  (List.range a.length).map (autocorrAt a)

/-- np.argmax: the first index attaining the maximum (later entries
replace only on a strictly greater value). -/
def argmaxIdxAux (i bi : Nat) (bv : Rat) : List Rat → Nat
  | [] => bi
  | x :: xs =>
      if bv < x then argmaxIdxAux (i + 1) i x xs else argmaxIdxAux (i + 1) bi bv xs

def argmaxIdx : List Rat → Nat
  | [] => 0
  | x :: xs => argmaxIdxAux 1 0 x xs

/-- audio_normalized then its autocorrelation (`_estimate_pitch` lines
171-176; 1e-8 guards division by zero). -/
def pitchCorr (audio : List Rat) : List Rat :=
  autocorr (audio.map (fun x => x / (maxAbsSample audio + 1/100000000)))

/-- min_period = int(sample_rate / 400). -/
def pitchMinPeriod (sampleRate : Nat) : Nat := sampleRate / 400

/-- max_period = int(sample_rate / 80). -/
def pitchMaxPeriod (sampleRate : Nat) : Nat := sampleRate / 80

/-- correlation[min_period:max_period]. -/
def pitchSearchRange (audio : List Rat) (sampleRate : Nat) : List Rat :=
  ((pitchCorr audio).drop (pitchMinPeriod sampleRate)).take
    (pitchMaxPeriod sampleRate - pitchMinPeriod sampleRate)

/-- peak_index = np.argmax(search_range) + min_period. -/
def pitchPeakIndex (audio : List Rat) (sampleRate : Nat) : Nat :=
  argmaxIdx (pitchSearchRange audio sampleRate) + pitchMinPeriod sampleRate

/-- The pitch value of `_estimate_pitch` just before the final sanity
check (the two early returns yield the baseline directly, as in the
source). -/
def pitchBeforeSanity (audio : List Rat) (sampleRate : Nat) : Rat :=
  if (pitchCorr audio).length ≤ pitchMaxPeriod sampleRate then baselinePitch
  else if (pitchSearchRange audio sampleRate).length = 0 then baselinePitch
  else if 0 < pitchPeakIndex audio sampleRate then
    (sampleRate : Rat) / (pitchPeakIndex audio sampleRate : Rat)
  else baselinePitch

/-- `_estimate_pitch` (emotion_detector.py lines 161-203). -/
def estimatePitch (audio : List Rat) (sampleRate : Nat) : Rat :=
  if (pitchCorr audio).length ≤ pitchMaxPeriod sampleRate then baselinePitch
  else if (pitchSearchRange audio sampleRate).length = 0 then baselinePitch
  else
    let pitch :=
      if 0 < pitchPeakIndex audio sampleRate then
        (sampleRate : Rat) / (pitchPeakIndex audio sampleRate : Rat)
      else baselinePitch
    if pitch < 80 ∨ 400 < pitch then baselinePitch else pitch

/-- `_calculate_energy`: RMS over the 0.1 reference level, clamped to 1.
`sqrtA` abstracts np.sqrt. -/
def calculateEnergy (sqrtA : Rat → Rat) (audio : List Rat) : Rat :=
  let rms := sqrtA (((audio.map (fun x => x * x)).sum) / (audio.length : Rat))
  min (rms / (1/10)) 1

/-- np.sign. -/
def ratSign (x : Rat) : Rat :=
  if x < 0 then -1 else if 0 < x then 1 else 0

/-- zero_crossings = sum(abs(diff(sign(audio)))) / 2. -/
def zeroCrossings (audio : List Rat) : Rat :=
  (((audio.map ratSign).zip ((audio.map ratSign).drop 1)).map
    (fun p => |p.2 - p.1|)).sum / 2

/-- `_estimate_tempo` (emotion_detector.py lines 222-249). -/
def estimateTempo (audio : List Rat) (sampleRate : Nat) : Rat :=
  let duration := (audio.length : Rat) / (sampleRate : Rat)
  if duration = 0 then baselineTempo
  else
    let zcr := zeroCrossings audio / duration
    let tempo := zcr / 3000
    max (1/2) (min tempo 2)

/-- Feature triple returned by `_extract_audio_features`. -/
structure AudioFeatures where
  pitch : Rat
  energy : Rat
  tempo : Rat
deriving DecidableEq

/-- `_extract_audio_features` (emotion_detector.py lines 124-159). -/
def extractAudioFeatures (sqrtA : Rat → Rat) (audio : List Rat) (sampleRate : Nat) :
    AudioFeatures :=
  if audio.length = 0 then
    { pitch := baselinePitch, energy := 0, tempo := baselineTempo }
  else
    { pitch := estimatePitch audio sampleRate
      energy := calculateEnergy sqrtA audio
      tempo := estimateTempo audio sampleRate }

-- Detector emotion history (deque of EmotionState, window default 300 s).

/-- `_cleanup_old_history`: pop entries from the front while the front
entry is older than the cutoff. -/
def cleanupOldHistory (cutoff : Rat) : List EmotionState → List EmotionState
  | [] => []
  | e :: rest =>
      if e.timestamp < cutoff then cleanupOldHistory cutoff rest else e :: rest

/-- History update performed by `analyze_audio` (emotion_detector.py lines
118-120): append the new state, then `_cleanup_old_history` with cutoff
now - window, where now is the new state's timestamp. -/
def insertEmotionState (windowSeconds : Rat) (history : List EmotionState)
    (e : EmotionState) : List EmotionState :=
  cleanupOldHistory (e.timestamp - windowSeconds) (history ++ [e])

/-- Entries of the detector history within the window
(timestamp >= now - window_seconds). -/
def detectorRecent (history : List EmotionState) (now windowSeconds : Rat) :
    List EmotionState :=
  history.filter (fun e => now - windowSeconds ≤ e.timestamp)

/-- recent_emotions[-3:], the most recent sample of at most 3 entries. -/
def detectorSample (history : List EmotionState) (now windowSeconds : Rat) :
    List EmotionState :=
  let recent := detectorRecent history now windowSeconds
  recent.drop (recent.length - 3)

/-- READY_EMOTIONS / ready_emotions: neutral and positive. -/
def readyEmotions : List EmotionType := [.neutral, .positive]

/-- `is_emotionally_ready_for_transition` of EmotionDetector
(emotion_detector.py lines 365-414): needs at least 3 entries in the
window, a ready majority over the last 3 (ties ready), and no Sad entry
in the sample. -/
def detectorIsReady (history : List EmotionState) (now windowSeconds : Rat) : Bool :=
  let recent := detectorRecent history now windowSeconds
  if recent.length < 3 then false
  else
    let sample := detectorSample history now windowSeconds
    let readyCount := (sample.filter (fun e => readyEmotions.contains e.emotion)).length
    let isReady := decide ((sample.length : Rat) / 2 ≤ (readyCount : Rat))
    let hasSad := sample.any (fun e => e.emotion == EmotionType.sad)
    if hasSad then false else isReady

-- Text handling shared by the engine's extraction helpers.

/-- Does `needle` occur at the start of `hay`? -/
def isPrefixChk : List Char → List Char → Bool
  | [], _ => true
  | _ :: _, [] => false
  | a :: as, b :: bs => a == b && isPrefixChk as bs

/-- Python's substring test `needle in hay`. -/
def containsSub (needle : List Char) : List Char → Bool
  | [] => needle.isEmpty
  | c :: rest => isPrefixChk needle (c :: rest) || containsSub needle rest

/-- Python's str.lower (the source text is ASCII). -/
def lowerText (text : List Char) : List Char :=
  text.map Char.toLower

-- Engine state (R2C2State dataclass, engine.py lines 54-65).

/-- One entry of `phase_history` (the dict appended in
`transition_to_next_phase`). -/
structure PhaseRecord where
  phase : R2C2Phase
  duration : Rat
  endedAt : Rat
deriving DecidableEq

/-- One goal dict of the development plan. -/
structure DevelopmentGoal where
  goalType : GoalType
  description : List Char
  timestamp : Rat
deriving DecidableEq

/-- DevelopmentPlan dataclass. -/
structure DevelopmentPlan where
  goals : List DevelopmentGoal
  createdAt : Option Rat
deriving DecidableEq

/-- R2C2State (feedback_data omitted: no modelled operation reads it). -/
structure R2C2State where
  currentPhase : R2C2Phase
  phaseStartTime : Rat
  userReactions : List (List Char)
  contentThemes : List (List Char)
  developmentPlan : Option DevelopmentPlan
  emotionalStates : List EmotionState
  phaseHistory : List PhaseRecord
deriving DecidableEq

/-- The engine object: its state plus `_session_start_time`. -/
structure R2C2Engine where
  state : R2C2State
  sessionStartTime : Rat
deriving DecidableEq

/-- `get_state`. -/
def getState (engine : R2C2Engine) : R2C2State :=
  engine.state

/-- `restore_state`. -/
def restoreState (engine : R2C2Engine) (s : R2C2State) : R2C2Engine :=
  { engine with state := s }

/-- `get_time_in_phase`. -/
def getTimeInPhase (s : R2C2State) (now : Rat) : Rat :=
  now - s.phaseStartTime

/-- `get_recent_emotions` (engine.py lines 109-124). -/
def getRecentEmotions (s : R2C2State) (now : Rat) (windowSeconds : Rat) :
    List EmotionState :=
  s.emotionalStates.filter (fun e => now - windowSeconds ≤ e.timestamp)

/-- recent_emotions[-3:] inside the engine's readiness check. -/
def engineRecentSample (s : R2C2State) (now : Rat) : List EmotionState :=
  let recent := getRecentEmotions s now 60
  if 3 ≤ recent.length then recent.drop (recent.length - 3) else recent

/-- `is_emotionally_ready_for_transition` of R2C2Engine (engine.py lines
126-146).  Unlike the detector's method it has no 3-entry minimum and no
Sad check: any nonempty window sample with a ready majority is ready. -/
def engineIsReady (s : R2C2State) (now : Rat) : Bool :=
  let recent := getRecentEmotions s now 60
  if recent.isEmpty then false
  else
    let sample := engineRecentSample s now
    let readyCount := (sample.filter (fun e => readyEmotions.contains e.emotion)).length
    decide ((readyCount : Rat) ≥ (sample.length : Rat) / 2)

/-- `should_transition` (engine.py lines 148-196).  Returns the decision
together with the state (the optional emotion is appended to history
before evaluating). -/
def shouldTransition (s : R2C2State) (now : Rat) (emotionState : Option EmotionState) :
    Bool × R2C2State :=
  let timeInPhase := getTimeInPhase s now
  let s1 := match emotionState with
    | some e => { s with emotionalStates := s.emotionalStates ++ [e] }
    | none => s
  let result : Bool :=
    match s.currentPhase with
    | .relationship =>
        decide (120 ≤ timeInPhase) || (decide (90 ≤ timeInPhase) && engineIsReady s1 now)
    | .reaction =>
        (decide (180 ≤ timeInPhase) && engineIsReady s1 now) || decide (600 ≤ timeInPhase)
    | .content =>
        (decide (240 ≤ timeInPhase) && decide (2 ≤ s1.contentThemes.length)) ||
          decide (720 ≤ timeInPhase)
    | .coaching => false
  (result, s1)

/-- The successor in phase_order (stay on the final phase). -/
def nextPhaseOf : R2C2Phase → R2C2Phase
  | .relationship => .reaction
  | .reaction => .content
  | .content => .coaching
  | .coaching => .coaching

/-- `transition_to_next_phase` (engine.py lines 198-233): record the
ending phase in phase_history, advance (staying on Coaching), reset
phase_start_time, and return the resulting phase with the new state. -/
def transitionToNextPhase (s : R2C2State) (now : Rat) : R2C2Phase × R2C2State :=
  let oldPhase := s.currentPhase
  let timeInPhase := getTimeInPhase s now
  let history := s.phaseHistory ++ [{ phase := oldPhase, duration := timeInPhase, endedAt := now }]
  let newPhase := nextPhaseOf oldPhase
  (newPhase,
   { s with currentPhase := newPhase, phaseStartTime := now, phaseHistory := history })

-- Utterance handling (record_user_response and extraction helpers).

/-- The fixed keyword list of `_extract_content_themes`. -/
def contentKeywords : List (List Char) :=
  ["communication".toList, "leadership".toList, "collaboration".toList,
   "feedback".toList, "delegation".toList, "listening".toList,
   "empathy".toList, "decision-making".toList, "accountability".toList,
   "follow-through".toList, "organization".toList, "planning".toList]

/-- `_extract_content_themes` (engine.py lines 888-905): append each
keyword found in the lowercased response and not yet recorded. -/
def extractContentThemes (s : R2C2State) (response : List Char) : R2C2State :=
  let responseLower := lowerText response
  { s with
    contentThemes :=
      contentKeywords.foldl
        (fun acc kw =>
          if containsSub kw responseLower && !acc.contains kw then acc ++ [kw] else acc)
        s.contentThemes }

def startKeywords : List (List Char) :=
  ["start".toList, "begin".toList, "initiate".toList]

def stopKeywords : List (List Char) :=
  ["stop".toList, "quit".toList, "cease".toList, "avoid".toList]

def continueKeywords : List (List Char) :=
  ["continue".toList, "keep".toList, "maintain".toList]

/-- any(word in response_lower for word in words). -/
def hasKeywordFrom (words : List (List Char)) (responseLower : List Char) : Bool :=
  words.any (fun w => containsSub w responseLower)

/-- The goal-type detection chain of `_extract_development_items`
(start/begin/initiate, then stop/quit/cease/avoid, then
continue/keep/maintain; the first matching family wins). -/
def detectGoalType (responseLower : List Char) : Option GoalType :=
  if hasKeywordFrom startKeywords responseLower then some .start
  else if hasKeywordFrom stopKeywords responseLower then some .stop
  else if hasKeywordFrom continueKeywords responseLower then some .cont
  else none

/-- `_extract_development_items` (engine.py lines 907-938): create the
development plan if missing (created_at = now), then append one goal when
a type is detected and the raw response is longer than 20 characters. -/
def extractDevelopmentItems (s : R2C2State) (now : Rat) (response : List Char) :
    R2C2State :=
  let plan := s.developmentPlan.getD { goals := [], createdAt := some now }
  let goalType := detectGoalType (lowerText response)
  let plan2 := match goalType with
    | some g =>
        if 20 < response.length then
          { plan with goals := plan.goals ++
              [{ goalType := g, description := response, timestamp := now }] }
        else plan
    | none => plan
  { s with developmentPlan := some plan2 }

/-- `record_user_response` (engine.py lines 857-886): append the optional
emotion, then dispatch on the current phase. -/
def recordUserResponse (s : R2C2State) (now : Rat) (response : List Char)
    (emotion : Option EmotionState) : R2C2State :=
  let s1 := match emotion with
    | some e => { s with emotionalStates := s.emotionalStates ++ [e] }
    | none => s
  match s1.currentPhase with
  | .reaction => { s1 with userReactions := s1.userReactions ++ [response] }
  | .content => extractContentThemes s1 response
  | .coaching => extractDevelopmentItems s1 now response
  | .relationship => s1

/-- The goals list of the state's development plan ([] when no plan
exists). -/
def planGoals (s : R2C2State) : List DevelopmentGoal :=
  match s.developmentPlan with
  | none => []
  | some p => p.goals

-- Concrete states used by witnesses and counterexamples.

/-- An engine state sitting in the terminal Coaching phase with no
recorded history and no development plan. -/
def coachingState0 : R2C2State :=
  { currentPhase := .coaching, phaseStartTime := 0, userReactions := [],
    contentThemes := [], developmentPlan := none, emotionalStates := [],
    phaseHistory := [] }

/-- A Reaction-phase state whose last-60s sample is two Neutral entries
followed by one Sad entry. -/
def reactionSadState : R2C2State :=
  { currentPhase := .reaction, phaseStartTime := 0, userReactions := [],
    contentThemes := [], developmentPlan := none,
    emotionalStates :=
      [{ emotion := .neutral, confidence := 1, timestamp := 150 },
       { emotion := .neutral, confidence := 1, timestamp := 160 },
       { emotion := .sad, confidence := 1, timestamp := 170 }],
    phaseHistory := [] }

/-- The feature vector of the C5 scenario. -/
def c5Features : SmoothedFeatures :=
  { pitchVariance := 60, energy := 8/10, tempo := 14/10 }

/-- A feature vector on which every rule score is 0. -/
def quietFeatures : SmoothedFeatures :=
  { pitchVariance := 15, energy := 3/10, tempo := 4/5 }

/-- C1 counterexample: in Coaching, `transition_to_next_phase` returns
Coaching but does NOT leave phase_history unchanged — a new record for
the coaching phase is appended (engine.py appends before the terminal
check). -/
theorem c1_counterexample :
    (transitionToNextPhase coachingState0 5).1 = R2C2Phase.coaching ∧
    (transitionToNextPhase coachingState0 5).2.phaseHistory ≠ coachingState0.phaseHistory := by
  constructor
  · rfl
  · simp [transitionToNextPhase, coachingState0, getTimeInPhase, nextPhaseOf]

/-- C1 (amended): in Coaching, `transition_to_next_phase` returns
Coaching and the phase stays Coaching, but the call appends one
PhaseTransitionRecord for the coaching phase to phase_history and resets
phase_start_time to now. -/
theorem c1_coaching_transition (s : R2C2State) (now : Rat)
    (h : s.currentPhase = .coaching) :
    (transitionToNextPhase s now).1 = R2C2Phase.coaching ∧
    (transitionToNextPhase s now).2.currentPhase = R2C2Phase.coaching ∧
    (transitionToNextPhase s now).2.phaseStartTime = now ∧
    (transitionToNextPhase s now).2.phaseHistory =
      s.phaseHistory ++
        [{ phase := R2C2Phase.coaching, duration := now - s.phaseStartTime,
           endedAt := now }] := by
  simp [transitionToNextPhase, getTimeInPhase, h, nextPhaseOf]

/-- C1 witness: the amended statement evaluated on a concrete Coaching
state. -/
theorem c1_coaching_transition_witness :
    (transitionToNextPhase coachingState0 5).1 = R2C2Phase.coaching ∧
    (transitionToNextPhase coachingState0 5).2.currentPhase = R2C2Phase.coaching ∧
    (transitionToNextPhase coachingState0 5).2.phaseStartTime = 5 ∧
    (transitionToNextPhase coachingState0 5).2.phaseHistory =
      coachingState0.phaseHistory ++
        [{ phase := R2C2Phase.coaching, duration := 5 - coachingState0.phaseStartTime,
           endedAt := 5 }] :=
  c1_coaching_transition coachingState0 5 rfl

/-- C2: the detector's readiness query over a 60-second window returns
false when fewer than 3 entries lie within the window; the sampled
entries number at most 3; and any Sad entry among them forces false. -/
theorem c2_detector_ready_guards (history : List EmotionState) (now : Rat) :
    ((detectorRecent history now 60).length < 3 →
      detectorIsReady history now 60 = false) ∧
    (detectorSample history now 60).length ≤ 3 ∧
    (∀ e ∈ detectorSample history now 60, e.emotion = EmotionType.sad →
      detectorIsReady history now 60 = false) := by
  refine ⟨?_, ?_, ?_⟩
  · intro h
    simp only [detectorIsReady]
    rw [if_pos h]
  · simp only [detectorSample, List.length_drop]
    omega
  · intro e he hsad
    simp only [detectorIsReady]
    by_cases hlen : (detectorRecent history now 60).length < 3
    · rw [if_pos hlen]
    · rw [if_neg hlen]
      have hany : (detectorSample history now 60).any
          (fun e => e.emotion == EmotionType.sad) = true :=
        List.any_eq_true.mpr ⟨e, he, by simp [hsad]⟩
      simp [hany]

/-- A detector history whose window sample ends in a Sad entry. -/
def sadHistory : List EmotionState :=
  [{ emotion := .neutral, confidence := 1, timestamp := 50 },
   { emotion := .neutral, confidence := 1, timestamp := 55 },
   { emotion := .sad, confidence := 1, timestamp := 58 }]

/-- C2 witness: an empty window is not ready, and a 2-ready/1-Sad sample
is not ready either. -/
theorem c2_detector_ready_guards_witness :
    detectorIsReady [] 0 60 = false ∧ detectorIsReady sadHistory 60 60 = false := by
  constructor
  · exact (c2_detector_ready_guards [] 0).1 (by simp [detectorRecent])
  · exact (c2_detector_ready_guards sadHistory 60).2.2
      { emotion := .sad, confidence := 1, timestamp := 58 }
      (by norm_num [detectorSample, detectorRecent, List.filter, sadHistory])
      rfl

/-- C3 counterexample: a Reaction-phase state at 200 s whose last-3
window sample contains a Sad entry, yet `should_transition` returns true
(the engine's readiness check never looks at Sad). -/
theorem c3_counterexample :
    (shouldTransition reactionSadState 200 none).1 = true ∧
    (engineRecentSample reactionSadState 200).any
      (fun e => e.emotion == EmotionType.sad) = true := by
  constructor
  · norm_num +decide [shouldTransition, getTimeInPhase, engineIsReady, engineRecentSample,
      getRecentEmotions, reactionSadState, readyEmotions, List.filter_cons,
      List.filter_nil, List.contains_cons, List.contains_nil,
      Bool.or_eq_true, beq_iff_eq]
  · norm_num +decide [engineRecentSample, getRecentEmotions, reactionSadState,
      List.filter_cons, List.filter_nil]

/-- C3 (amended): in Reaction, `should_transition()` is true
unconditionally once time in phase reaches 600 s; for time in phase in
[180, 600) it equals the engine's own readiness check — a ready-count of
at least half of the (at most 3, possibly fewer) sampled entries in the
last 60 s — with no exclusion of Sad entries. -/
theorem c3_reaction_transition (s : R2C2State) (now : Rat)
    (h : s.currentPhase = .reaction) :
    (600 ≤ getTimeInPhase s now → (shouldTransition s now none).1 = true) ∧
    (180 ≤ getTimeInPhase s now → getTimeInPhase s now < 600 →
      (shouldTransition s now none).1 = engineIsReady s now) := by
  constructor
  · intro h600
    simp [shouldTransition, h, h600]
  · intro h180 h600
    have hn : ¬ (600 ≤ getTimeInPhase s now) := not_le.mpr h600
    simp [shouldTransition, h, h180, hn]

/-- C3 witness: the amended statement evaluated at 700 s and at 200 s in
the Reaction phase. -/
theorem c3_reaction_transition_witness :
    (shouldTransition reactionSadState 700 none).1 = true ∧
    (shouldTransition reactionSadState 200 none).1 = engineIsReady reactionSadState 200 := by
  constructor
  · exact (c3_reaction_transition reactionSadState 700 rfl).1
      (by norm_num [getTimeInPhase, reactionSadState])
  · exact (c3_reaction_transition reactionSadState 200 rfl).2
      (by norm_num [getTimeInPhase, reactionSadState])
      (by norm_num [getTimeInPhase, reactionSadState])

/-- C5: the smoothed vector with pitch variance 60, energy 0.8 and tempo
1.4 classifies as Defensive with confidence exactly 1, although
Frustrated and Anxious also reach the maximal accumulated score 1 — the
dict iteration order Neutral, Defensive, Frustrated, Sad, Anxious,
Positive breaks the tie in favour of Defensive. -/
theorem c5_defensive_tie_break :
    classifyEmotion c5Features = (EmotionType.defensive, 1) ∧
    emotionScore c5Features EmotionType.defensive = 1 ∧
    emotionScore c5Features EmotionType.frustrated = 1 ∧
    emotionScore c5Features EmotionType.anxious = 1 := by
  refine ⟨?_, ?_, ?_, ?_⟩ <;>
    norm_num [classifyEmotion, argmaxEmotion, emotionOrder, emotionScore, c5Features,
      PITCH_VARIANCE_HIGH, PITCH_VARIANCE_LOW, ENERGY_HIGH, ENERGY_LOW,
      TEMPO_FAST, TEMPO_SLOW, MIN_CONFIDENCE, List.foldl]

/-- C6: every emitted confidence lies in [0, 1]; when the maximal rule
score is below MIN_CONFIDENCE (0.3) the result is exactly
(Neutral, MIN_CONFIDENCE), and otherwise the confidence is the maximal
score capped at 1. -/
theorem c6_confidence_clamped (f : SmoothedFeatures) :
    (0 ≤ (classifyEmotion f).2 ∧ (classifyEmotion f).2 ≤ 1) ∧
    (maxRuleScore f < MIN_CONFIDENCE →
      classifyEmotion f = (EmotionType.neutral, MIN_CONFIDENCE)) ∧
    (MIN_CONFIDENCE ≤ maxRuleScore f →
      (classifyEmotion f).2 = min (maxRuleScore f) 1) := by
  have hkey := argmaxEmotion_score_eq_maxRuleScore f
  have hnn := emotionScore_nonneg f (argmaxEmotion (emotionScore f))
  rw [hkey] at hnn
  by_cases hlt : maxRuleScore f < MIN_CONFIDENCE
  · have hc : classifyEmotion f = (EmotionType.neutral, MIN_CONFIDENCE) := by
      simp only [classifyEmotion]
      rw [hkey, if_pos hlt]
    refine ⟨?_, fun _ => hc, fun hge => absurd hlt (not_lt.mpr hge)⟩
    rw [hc]
    norm_num [MIN_CONFIDENCE]
  · have hc : classifyEmotion f =
        (argmaxEmotion (emotionScore f), min (maxRuleScore f) 1) := by
      simp only [classifyEmotion]
      rw [hkey, if_neg hlt]
    refine ⟨?_, fun hl => absurd hl hlt, fun _ => by rw [hc]⟩
    rw [hc]
    exact ⟨le_min hnn zero_le_one, min_le_right _ _⟩

/-- C6 witness: the below-threshold branch on a vector scoring 0
everywhere, and the capped branch on the C5 vector. -/
theorem c6_confidence_clamped_witness :
    classifyEmotion quietFeatures = (EmotionType.neutral, MIN_CONFIDENCE) ∧
    (classifyEmotion c5Features).2 = min (maxRuleScore c5Features) 1 := by
  constructor
  · exact (c6_confidence_clamped quietFeatures).2.1
      (by norm_num [maxRuleScore, emotionOrder, emotionScore, quietFeatures,
        PITCH_VARIANCE_HIGH, PITCH_VARIANCE_LOW, ENERGY_HIGH, ENERGY_LOW,
        TEMPO_FAST, TEMPO_SLOW, MIN_CONFIDENCE, List.foldl])
  · exact (c6_confidence_clamped c5Features).2.2
      (by norm_num [maxRuleScore, emotionOrder, emotionScore, c5Features,
        PITCH_VARIANCE_HIGH, PITCH_VARIANCE_LOW, ENERGY_HIGH, ENERGY_LOW,
        TEMPO_FAST, TEMPO_SLOW, MIN_CONFIDENCE, List.foldl])

/-- C9: snapshotting via get_state and restoring via restore_state gives
an engine whose current_phase and phase_start_time equal the snapshotted
values exactly. -/
theorem c9_snapshot_restore_roundtrip (engine1 engine2 : R2C2Engine) :
    (restoreState engine2 (getState engine1)).state.currentPhase =
      engine1.state.currentPhase ∧
    (restoreState engine2 (getState engine1)).state.phaseStartTime =
      engine1.state.phaseStartTime :=
  ⟨rfl, rfl⟩

-- C7: feature extraction degradation.

/-- `_estimate_pitch` equals its pre-sanity value unless that value falls
outside the plausible 80-400 Hz band, in which case the baseline is
returned (the early-return paths already produce the in-band baseline). -/
theorem estimatePitch_eq_sanity (audio : List Rat) (sampleRate : Nat) :
    estimatePitch audio sampleRate =
      if pitchBeforeSanity audio sampleRate < 80 ∨ 400 < pitchBeforeSanity audio sampleRate
      then baselinePitch else pitchBeforeSanity audio sampleRate := by
  by_cases hA : (pitchCorr audio).length ≤ pitchMaxPeriod sampleRate
  · simp only [estimatePitch, pitchBeforeSanity, if_pos hA]
    rw [ite_self]
  · by_cases hB : (pitchSearchRange audio sampleRate).length = 0
    · simp only [estimatePitch, pitchBeforeSanity, if_neg hA, if_pos hB]
      rw [ite_self]
    · by_cases hC : 0 < pitchPeakIndex audio sampleRate
      · simp only [estimatePitch, pitchBeforeSanity, if_neg hA, if_neg hB, if_pos hC]
      · simp only [estimatePitch, pitchBeforeSanity, if_neg hA, if_neg hB, if_neg hC]

/-- C7: an empty chunk yields exactly the baseline pitch, zero energy and
baseline tempo without any failure, and for a non-empty chunk whose
autocorrelation pitch estimate falls outside [80, 400] Hz the returned
pitch is the baseline pitch constant. -/
theorem c7_empty_and_pitch_sanity (sqrtA : Rat → Rat) :
    (∀ sampleRate : Nat, extractAudioFeatures sqrtA [] sampleRate =
      { pitch := baselinePitch, energy := 0, tempo := baselineTempo }) ∧
    (∀ (audio : List Rat) (sampleRate : Nat), audio ≠ [] →
      pitchBeforeSanity audio sampleRate < 80 ∨ 400 < pitchBeforeSanity audio sampleRate →
      (extractAudioFeatures sqrtA audio sampleRate).pitch = baselinePitch) := by
  constructor
  · intro sampleRate
    rfl
  · intro audio sampleRate hne hout
    have hlen : ¬ (audio.length = 0) := by simpa [List.length_eq_zero] using hne
    simp only [extractAudioFeatures, if_neg hlen]
    rw [estimatePitch_eq_sanity, if_pos hout]

/-- A six-sample chunk whose autocorrelation peak sits at lag 1, so that
at sample rate 401 the raw pitch estimate is 401 Hz, just outside the
plausible band. -/
def pitchAudio : List Rat := [1, 1, 0, 0, 0, 0]

/-- C7 witness: the empty chunk at 16 kHz, and the out-of-band estimate
falling back to the baseline. -/
theorem c7_empty_and_pitch_sanity_witness :
    extractAudioFeatures (fun x => x) [] 16000 =
      { pitch := baselinePitch, energy := 0, tempo := baselineTempo } ∧
    (extractAudioFeatures (fun x => x) pitchAudio 401).pitch = baselinePitch := by
  constructor
  · exact (c7_empty_and_pitch_sanity (fun x => x)).1 16000
  · refine (c7_empty_and_pitch_sanity (fun x => x)).2 pitchAudio 401
      (by simp [pitchAudio]) (Or.inr ?_)
    norm_num [pitchBeforeSanity, pitchCorr, pitchMinPeriod, pitchMaxPeriod,
      pitchSearchRange, pitchPeakIndex, autocorr, autocorrAt, argmaxIdx,
      argmaxIdxAux, maxAbsSample, pitchAudio, baselinePitch, List.range_succ,
      List.foldl, List.zip, List.zipWith, List.map, List.sum]

-- C8: the history window invariant.

theorem cleanupOldHistory_sublist (cutoff : Rat) (h : List EmotionState) :
    (cleanupOldHistory cutoff h).Sublist h := by
  induction h with
  | nil => simp [cleanupOldHistory]
  | cons e rest ih =>
    simp only [cleanupOldHistory]
    split_ifs with hc
    · exact ih.cons e
    · exact List.Sublist.refl _

theorem cleanupOldHistory_ge (cutoff : Rat) (h : List EmotionState)
    (hp : h.Pairwise (fun a b => a.timestamp ≤ b.timestamp)) :
    ∀ x ∈ cleanupOldHistory cutoff h, cutoff ≤ x.timestamp := by
  induction h with
  | nil => simp [cleanupOldHistory]
  | cons e rest ih =>
    simp only [cleanupOldHistory]
    split_ifs with hc
    · exact ih (List.Pairwise.of_cons hp)
    · intro x hx
      rcases List.mem_cons.mp hx with rfl | hx2
      · exact le_of_not_lt hc
      · exact le_trans (le_of_not_lt hc) ((List.pairwise_cons.mp hp).1 x hx2)

theorem foldInsert_spec (W : Rat) :
    ∀ (es h : List EmotionState),
      (h ++ es).Pairwise (fun a b => a.timestamp ≤ b.timestamp) →
      ((es.foldl (fun acc en => insertEmotionState W acc en) h).Pairwise
          (fun a b => a.timestamp ≤ b.timestamp) ∧
        ∀ x ∈ es.foldl (fun acc en => insertEmotionState W acc en) h, x ∈ h ++ es) := by
  intro es
  induction es with
  | nil =>
    intro h hp
    exact ⟨by simpa using hp, by simp⟩
  | cons e rest ih =>
    intro h hp
    have hp2 : ((h ++ [e]) ++ rest).Pairwise (fun a b => a.timestamp ≤ b.timestamp) := by
      rw [List.append_assoc]
      simpa using hp
    have hsub : (insertEmotionState W h e).Sublist (h ++ [e]) :=
      cleanupOldHistory_sublist _ _
    have hp3 : ((insertEmotionState W h e) ++ rest).Pairwise
        (fun a b => a.timestamp ≤ b.timestamp) :=
      hp2.sublist (hsub.append_right rest)
    obtain ⟨ihp, ihm⟩ := ih (insertEmotionState W h e) hp3
    refine ⟨by simpa [List.foldl_cons] using ihp, ?_⟩
    intro x hx
    have hx2 := ihm x (by simpa [List.foldl_cons] using hx)
    rcases List.mem_append.mp hx2 with hins | hrest
    · have hx3 : x ∈ h ++ [e] := hsub.subset hins
      rcases List.mem_append.mp hx3 with hh | he2
      · exact List.mem_append.mpr (Or.inl hh)
      · have : x = e := by simpa using he2
        subst this
        exact List.mem_append.mpr (Or.inr (List.mem_cons_self _ _))
    · exact List.mem_append.mpr (Or.inr (List.mem_cons_of_mem _ hrest))

/-- C8: after any chronological sequence of insertions ending with an
entry timestamped t, every retained history entry has a timestamp of at
least t minus the configured window: the insertion's cleanup never leaves
an entry older than the window. -/
theorem c8_history_window (W : Rat) (es : List EmotionState) (e : EmotionState)
    (hchron : (es ++ [e]).Pairwise (fun a b => a.timestamp ≤ b.timestamp)) :
    ∀ x ∈ (es ++ [e]).foldl (fun acc en => insertEmotionState W acc en) [],
      e.timestamp - W ≤ x.timestamp := by
  intro x hx
  rw [List.foldl_append] at hx
  have hes : es.Pairwise (fun a b => a.timestamp ≤ b.timestamp) :=
    hchron.sublist (List.sublist_append_left es [e])
  obtain ⟨hfp, hfm⟩ := foldInsert_spec W es [] (by simpa using hes)
  have hrel : ∀ a ∈ es.foldl (fun acc en => insertEmotionState W acc en) [],
      ∀ b ∈ [e], a.timestamp ≤ b.timestamp := by
    intro a ha b hb
    have ha2 : a ∈ es := by simpa using hfm a ha
    have hb2 : b = e := by simpa using hb
    subst hb2
    exact (List.pairwise_append.mp hchron).2.2 a ha2 b (by simp)
  have hp2 : ((es.foldl (fun acc en => insertEmotionState W acc en) []) ++ [e]).Pairwise
      (fun a b => a.timestamp ≤ b.timestamp) :=
    List.pairwise_append.mpr ⟨hfp, by simp, hrel⟩
  exact cleanupOldHistory_ge (e.timestamp - W) _ hp2 x
    (by simpa [List.foldl_cons, insertEmotionState] using hx)

/-- History entries for the C8 witness: one at 0 s and one at 400 s. -/
def histEntry0 : EmotionState :=
  { emotion := .neutral, confidence := 1, timestamp := 0 }

def histEntry1 : EmotionState :=
  { emotion := .neutral, confidence := 1, timestamp := 400 }

/-- C8 witness: inserting at 0 s and then at 400 s with the default
300 s window, the surviving entry (the 400 s one) is within the window. -/
theorem c8_history_window_witness :
    histEntry1.timestamp - 300 ≤ histEntry1.timestamp :=
  c8_history_window 300 [histEntry0] histEntry1
    (by norm_num [List.pairwise_cons, histEntry0, histEntry1])
    histEntry1
    (by norm_num [List.foldl_cons, List.foldl_nil, insertEmotionState,
      cleanupOldHistory, histEntry0, histEntry1])

-- C4 and C10: utterance extraction.

theorem mem_of_isPrefixChk (needle : List Char) :
    ∀ (hay : List Char), isPrefixChk needle hay = true → ∀ c ∈ needle, c ∈ hay := by
  induction needle with
  | nil =>
    intro hay _ c hc
    simp at hc
  | cons a as ih =>
    intro hay hp c hc
    cases hay with
    | nil => simp [isPrefixChk] at hp
    | cons b bs =>
      simp only [isPrefixChk, Bool.and_eq_true, beq_iff_eq] at hp
      obtain ⟨rfl, hp2⟩ := hp
      rcases List.mem_cons.mp hc with rfl | hc2
      · exact List.mem_cons_self _ _
      · exact List.mem_cons_of_mem _ (ih bs hp2 c hc2)

theorem mem_of_containsSub (needle : List Char) :
    ∀ (hay : List Char), containsSub needle hay = true → ∀ c ∈ needle, c ∈ hay := by
  intro hay
  induction hay with
  | nil =>
    intro hp c hc
    cases needle with
    | nil => simp at hc
    | cons a as => simp [containsSub] at hp
  | cons b bs ih =>
    intro hp c hc
    simp only [containsSub, Bool.or_eq_true] at hp
    rcases hp with hp1 | hp2
    · exact mem_of_isPrefixChk needle _ hp1 c hc
    · exact List.mem_cons_of_mem _ (ih hp2 c hc)

theorem toLower_of_whitespace (c : Char) (hw : c.isWhitespace = true) :
    c.toLower = c := by
  simp only [Char.isWhitespace, Bool.or_eq_true, decide_eq_true_eq] at hw
  rcases hw with ((h | h) | h) | h <;> subst h <;> decide

theorem lowerText_whitespace (text : List Char)
    (hw : text.all Char.isWhitespace = true) :
    ∀ x ∈ lowerText text, x.isWhitespace = true := by
  intro x hx
  simp only [lowerText, List.mem_map] at hx
  obtain ⟨y, hy, rfl⟩ := hx
  have hyw := List.all_eq_true.mp hw y hy
  rw [toLower_of_whitespace y hyw]
  exact hyw

theorem containsSub_eq_false_of_ws (needle hay : List Char)
    (hn : needle.any (fun c => !c.isWhitespace) = true)
    (hw : ∀ x ∈ hay, x.isWhitespace = true) :
    containsSub needle hay = false := by
  rcases List.any_eq_true.mp hn with ⟨c, hc, hcb⟩
  rw [Bool.not_eq_true'] at hcb
  by_contra hcon
  rw [Bool.not_eq_false] at hcon
  have hmem := hw c (mem_of_containsSub needle hay hcon c hc)
  rw [hmem] at hcb
  exact Bool.noConfusion hcb

theorem foldlThemes_noop (lower : List Char) :
    ∀ (kws : List (List Char)) (acc : List (List Char)),
      (∀ kw ∈ kws, containsSub kw lower = false) →
      kws.foldl (fun acc kw =>
        if containsSub kw lower && !acc.contains kw then acc ++ [kw] else acc) acc = acc := by
  intro kws
  induction kws with
  | nil => intro acc _; rfl
  | cons k ks ih =>
    intro acc hall
    have hk : containsSub k lower = false := hall k (by simp)
    rw [List.foldl_cons]
    have hstep : (if containsSub k lower && !acc.contains k then acc ++ [k] else acc) = acc := by
      rw [hk]
      simp
    rw [hstep]
    exact ih acc (fun kw hkw => hall kw (List.mem_cons_of_mem _ hkw))

/-- C4 counterexample: in Coaching with no development plan, recording an
empty utterance creates the plan object — the plan's existence flag is
not left unchanged. -/
theorem c4_counterexample :
    coachingState0.developmentPlan = none ∧
    (recordUserResponse coachingState0 0 [] none).developmentPlan ≠ none := by
  constructor
  · rfl
  · simp [recordUserResponse, coachingState0, extractDevelopmentItems]

/-- C4 (amended): for empty or whitespace-only text, record_user_response
never fails, extracts nothing (content_themes, the plan's goal list and
the emotion history are unchanged) and outside Coaching leaves the
development plan untouched; in Coaching, however, a missing development
plan is created empty (with created_at set) even for such text. -/
theorem c4_whitespace_extraction (s : R2C2State) (now : Rat) (response : List Char)
    (hw : response.all Char.isWhitespace = true) :
    (recordUserResponse s now response none).contentThemes = s.contentThemes ∧
    planGoals (recordUserResponse s now response none) = planGoals s ∧
    (recordUserResponse s now response none).emotionalStates = s.emotionalStates ∧
    (s.currentPhase ≠ R2C2Phase.coaching →
      (recordUserResponse s now response none).developmentPlan = s.developmentPlan) ∧
    (s.currentPhase = R2C2Phase.coaching →
      (recordUserResponse s now response none).developmentPlan =
        some (s.developmentPlan.getD { goals := [], createdAt := some now })) := by
  have hlw := lowerText_whitespace response hw
  have hnocontent : ∀ kw ∈ contentKeywords, containsSub kw (lowerText response) = false := by
    intro kw hkw
    fin_cases hkw <;> exact containsSub_eq_false_of_ws _ _ (by decide) hlw
  have hnostart : hasKeywordFrom startKeywords (lowerText response) = false := by
    have hws : ∀ w ∈ startKeywords, containsSub w (lowerText response) = false := by
      intro w hw2
      fin_cases hw2 <;> exact containsSub_eq_false_of_ws _ _ (by decide) hlw
    refine List.any_eq_false.mpr ?_
    intro w hw2
    simp [hws w hw2]
  have hnostop : hasKeywordFrom stopKeywords (lowerText response) = false := by
    have hws : ∀ w ∈ stopKeywords, containsSub w (lowerText response) = false := by
      intro w hw2
      fin_cases hw2 <;> exact containsSub_eq_false_of_ws _ _ (by decide) hlw
    refine List.any_eq_false.mpr ?_
    intro w hw2
    simp [hws w hw2]
  have hnocont : hasKeywordFrom continueKeywords (lowerText response) = false := by
    have hws : ∀ w ∈ continueKeywords, containsSub w (lowerText response) = false := by
      intro w hw2
      fin_cases hw2 <;> exact containsSub_eq_false_of_ws _ _ (by decide) hlw
    refine List.any_eq_false.mpr ?_
    intro w hw2
    simp [hws w hw2]
  have hdetect : detectGoalType (lowerText response) = none := by
    simp [detectGoalType, hnostart, hnostop, hnocont]
  cases hph : s.currentPhase with
  | relationship =>
    refine ⟨?_, ?_, ?_, fun _ => ?_, fun hcontra => ?_⟩ <;>
      simp_all [recordUserResponse, planGoals]
  | reaction =>
    refine ⟨?_, ?_, ?_, fun _ => ?_, fun hcontra => ?_⟩ <;>
      simp_all [recordUserResponse, planGoals]
  | content =>
    have hfold := foldlThemes_noop (lowerText response) contentKeywords
      s.contentThemes hnocontent
    refine ⟨?_, ?_, ?_, fun _ => ?_, fun hcontra => ?_⟩ <;>
      simp_all [recordUserResponse, extractContentThemes, planGoals]
  | coaching =>
    cases hdp : s.developmentPlan with
    | none =>
      refine ⟨?_, ?_, ?_, fun hcontra => absurd rfl hcontra, fun _ => ?_⟩ <;>
        simp_all [recordUserResponse, extractDevelopmentItems, planGoals]
    | some p =>
      refine ⟨?_, ?_, ?_, fun hcontra => absurd rfl hcontra, fun _ => ?_⟩ <;>
        simp_all [recordUserResponse, extractDevelopmentItems, planGoals]

/-- C4 witness: the amended statement on a whitespace-only utterance in
the Coaching phase with no prior plan. -/
theorem c4_whitespace_extraction_witness :
    (recordUserResponse coachingState0 3 "  ".toList none).contentThemes =
      coachingState0.contentThemes ∧
    planGoals (recordUserResponse coachingState0 3 "  ".toList none) =
      planGoals coachingState0 ∧
    (recordUserResponse coachingState0 3 "  ".toList none).emotionalStates =
      coachingState0.emotionalStates ∧
    (coachingState0.currentPhase ≠ R2C2Phase.coaching →
      (recordUserResponse coachingState0 3 "  ".toList none).developmentPlan =
        coachingState0.developmentPlan) ∧
    (coachingState0.currentPhase = R2C2Phase.coaching →
      (recordUserResponse coachingState0 3 "  ".toList none).developmentPlan =
        some (coachingState0.developmentPlan.getD { goals := [], createdAt := some 3 })) :=
  c4_whitespace_extraction coachingState0 3 "  ".toList (by decide)

/-- How many goal-keyword families fire on a lowercased utterance. -/
def familiesDetected (responseLower : List Char) : Nat :=
  (if hasKeywordFrom startKeywords responseLower then 1 else 0) +
  (if hasKeywordFrom stopKeywords responseLower then 1 else 0) +
  (if hasKeywordFrom continueKeywords responseLower then 1 else 0)

/-- C10: a Coaching-phase utterance longer than 20 characters matching
more than one goal-keyword family appends exactly one goal whose type is
the first matching family in the fixed order start, stop, continue. -/
theorem c10_goal_priority (s : R2C2State) (now : Rat) (response : List Char)
    (hph : s.currentPhase = R2C2Phase.coaching)
    (hlen : 20 < response.length)
    (hmulti : 2 ≤ familiesDetected (lowerText response)) :
    planGoals (recordUserResponse s now response none) =
      planGoals s ++
        [{ goalType :=
             if hasKeywordFrom startKeywords (lowerText response) then GoalType.start
             else if hasKeywordFrom stopKeywords (lowerText response) then GoalType.stop
             else GoalType.cont,
           description := response, timestamp := now }] := by
  cases hstart : hasKeywordFrom startKeywords (lowerText response) with
  | true =>
    have hdet : detectGoalType (lowerText response) = some GoalType.start := by
      simp [detectGoalType, hstart]
    cases hdp : s.developmentPlan <;>
      simp [recordUserResponse, hph, extractDevelopmentItems, hdet, hdp,
        planGoals, hlen, hstart]
  | false =>
    cases hstop : hasKeywordFrom stopKeywords (lowerText response) with
    | true =>
      have hdet : detectGoalType (lowerText response) = some GoalType.stop := by
        simp [detectGoalType, hstart, hstop]
      cases hdp : s.developmentPlan <;>
        simp [recordUserResponse, hph, extractDevelopmentItems, hdet, hdp,
          planGoals, hlen, hstart, hstop]
    | false =>
      exfalso
      cases hcont : hasKeywordFrom continueKeywords (lowerText response) <;>
        simp [familiesDetected, hstart, hstop, hcont] at hmulti

/-- A Coaching utterance matching both the start and the stop family. -/
def goalResponse : List Char := "start doing x and stop doing y".toList

/-- C10 witness: the mixed-family utterance on the empty Coaching state
produces one goal, typed start. -/
theorem c10_goal_priority_witness :
    planGoals (recordUserResponse coachingState0 7 goalResponse none) =
      planGoals coachingState0 ++
        [{ goalType :=
             if hasKeywordFrom startKeywords (lowerText goalResponse) then GoalType.start
             else if hasKeywordFrom stopKeywords (lowerText goalResponse) then GoalType.stop
             else GoalType.cont,
           description := goalResponse, timestamp := 7 }] :=
  c10_goal_priority coachingState0 7 goalResponse rfl (by decide) (by decide)
